import Mathlib

/-!
Verification of the pyroute2 netlink client core, a shallow embedding of
src/pyroute2/netlink/client.py and src/pyroute2/netlink/iproute.py.

Bytes are modelled as lists of natural numbers (one entry per byte);
Python dictionaries holding the listener registry are modelled as
association lists; exceptions are modelled as explicit result
constructors.  Every definition is translated from the Python source,
statement by statement.
-/

namespace Pyroute2

/-! ### Reassembler: Netlink._feed_buffers (client.py lines 116-179)

The framing walk of the reassembly thread.  On each blob the code
concatenates the saved carry with the blob, then walks the buffer:
at each offset it unpacks an 8-byte prefix via struct.unpack of the
format string IHH (u32 length, u16 type, u16 flags, little-endian);
if the declared length overruns the buffer the whole tail from the
current offset is saved as the new carry and the walk breaks,
otherwise the length-byte slice is emitted as one envelope.
Crucially, the loop body then REBINDS the walk variable buf to a new
BytesIO holding the envelope's CDATA payload (client.py lines
165-167, buf = io.BytesIO(); buf.length = buf.write(envelope.
get_attr of IPR_ATTR_CDATA)), and only afterwards advances offset by
the declared length.  The while condition (offset < buf.length, line
139) and the next prefix read therefore run against the rebound
payload buffer, not the original concatenated buffer.  The payload is
a proper substring of the emitted envelope, so after any emission the
condition is false and the loop exits: any bytes remaining after a
complete envelope are silently dropped, never saved as carry.
struct.unpack raises struct.error when fewer than 8 bytes could be
read; that exception is not caught anywhere in the function (modelled
as unpackError).  Decode failures of an emitted slice (a malformed
envelope) are not modelled; the inputs used here are well formed.
-/

/-- Little-endian value of the n bytes of buf starting at position off,
as struct.unpack reads fixed-width integers. -/
def readLE (buf : List Nat) (off : Nat) : Nat → Nat
  | 0 => 0
  | n + 1 => buf.getD off 0 + 256 * readLE buf (off + 1) n

/-- Modelled from the spec: the CDATA payload extraction performed by
envmsg.decode and get_attr of IPR_ATTR_CDATA, from the
pyroute2.netlink.generic module which is not under src.  Per the spec
(section 6) an envelope is a 16-byte header, then two 4-byte realm
fields, then a TLV attribute list holding the single CDATA attribute:
a 2-byte length that counts the 4-byte TLV header plus the payload, a
2-byte type, then the payload bytes.  The payload starts at byte 28
and is always a proper substring of the envelope. -/
def cdataOf (env : List Nat) : List Nat :=
  (env.drop 28).take (readLE env 24 2 - 4)

/-- Outcome of the framing walk: normal completion with the emitted
envelope slices and the saved carry; an uncaught struct.error from a
short prefix read (fewer than 8 bytes left at the offset); or fuel
exhaustion (unreachable for the inputs considered here, since every
iteration either breaks, exits or shrinks the buffer). -/
inductive WalkResult where
  | ok (emitted : List (List Nat)) (carry : Option (List Nat))
  | unpackError (emitted : List (List Nat))
  | stuck (emitted : List (List Nat))
deriving DecidableEq

/-- The inner while loop of Netlink._feed_buffers (client.py lines
139-179), walking buf from offset.  After emitting a slice the
recursion continues with buf rebound to the slice's CDATA payload
(client.py lines 165-167) and offset advanced by the declared length,
exactly as the Python loop does; the loop-condition test offset <
buf.length is the head of the recursion.  Fuel bounds the number of
loop iterations; feed_one supplies enough fuel for every terminating
run. -/
def walk : Nat → List Nat → Nat → WalkResult
  | 0, _, _ => WalkResult.stuck []
  | fuel + 1, buf, offset =>
    if offset < buf.length then
      if buf.length < offset + 8 then WalkResult.unpackError []
      else if buf.length < offset + readLE buf offset 4 then
        WalkResult.ok [] (some (buf.drop offset))
      else
        match walk fuel (cdataOf ((buf.drop offset).take (readLE buf offset 4)))
            (offset + readLE buf offset 4) with
        | WalkResult.ok em c =>
          WalkResult.ok ((buf.drop offset).take (readLE buf offset 4) :: em) c
        | WalkResult.unpackError em =>
          WalkResult.unpackError ((buf.drop offset).take (readLE buf offset 4) :: em)
        | WalkResult.stuck em =>
          WalkResult.stuck ((buf.drop offset).take (readLE buf offset 4) :: em)
    else WalkResult.ok [] none

/-- One iteration of the outer loop of Netlink._feed_buffers: the fresh
blob is appended to the saved carry (client.py lines 129-136) and the
framing walk runs from offset 0. -/
def feed_one (save : Option (List Nat)) (blob : List Nat) : WalkResult :=
  let buf := (save.getD []) ++ blob
  walk (buf.length + 1) buf 0

/-- A concrete well-formed 40-byte envelope: length 40 (bytes 40,0,0,0
little-endian), type 16, flags 0, sequence 1, pid 0, two zero realm
fields, then one TLV attribute of length 16 (4-byte TLV header plus 12
payload bytes) and type 1 carrying a 12-byte CDATA payload. -/
def env40 : List Nat :=
  [40, 0, 0, 0, 16, 0, 0, 0,
   1, 0, 0, 0, 0, 0, 0, 0,
   0, 0, 0, 0, 0, 0, 0, 0,
   16, 0, 1, 0,
   7, 7, 7, 7, 7, 7, 7, 7, 7, 7, 7, 7]

/-! ### Inner messages and constants -/

/-- A parsed inner message as the client sees it: the code only reads
msg.header.type, msg.header.flags, msg.header.sequence_number and
msg.header.get of error (client.py lines 383-400). -/
structure Msg where
  mtype : Nat
  flags : Nat
  seq : Nat
  error : Option Nat
deriving DecidableEq

/-- Modelled from the spec: the DONE sentinel message type NLMSG_DONE,
imported by client.py from the pyroute2.netlink package, which is not
under src (standard netlink value 3). -/
def NLMSG_DONE : Nat := 3

/-- Modelled from the spec: the MULTI flag bit NLM_F_MULTI, imported by
client.py from the pyroute2.netlink package, which is not under src
(standard netlink value 2). -/
def NLM_F_MULTI : Nat := 2

/-! ### Callback chain: Netlink.parse (client.py lines 181-214) and the
dispatch context in Netlink._feed_buffers (lines 160-177)

Predicates and actions are Python callables that may raise; an
exception is modelled as an Except.error value.  parse iterates the
callback list with no exception handler of its own; the only handler
on the path is the try/except AttributeError wrapping the dispatch in
_feed_buffers (lines 164-177), which silently drops the packet.  The
trace collects the ids of the entries whose action was invoked, in
invocation order.
-/

/-- A Python exception: AttributeError is distinguished because
_feed_buffers catches exactly that class. -/
inductive PyExc where
  | attributeError
  | other (code : Nat)
deriving DecidableEq

/-- One registered callback entry (predicate, callback, args) as stored
by register_callback (client.py line 341); id identifies the entry in
the trace. -/
structure CbEntry where
  id : Nat
  pred : Msg → Except PyExc Bool
  action : Msg → Except PyExc Unit

/-- The callback loop of Netlink.parse (client.py lines 189-191): for
each entry in registration order, if the predicate returns true the
action is invoked.  An exception from either aborts the loop and
propagates.  Returns the trace of invoked actions and the escaping
exception, if any. -/
def runCallbacksTr (es : List CbEntry) (msg : Msg) (tr : List Nat) :
    List Nat × Option PyExc :=
  match es with
  | [] => (tr, none)
  | e :: rest =>
    match e.pred msg with
    | Except.error ex => (tr, some ex)
    | Except.ok false => runCallbacksTr rest msg tr
    | Except.ok true =>
      match e.action msg with
      | Except.error ex => (tr ++ [e.id], some ex)
      | Except.ok _ => runCallbacksTr rest msg (tr ++ [e.id])

/-- The outer loop of Netlink.parse (client.py line 183) over the
messages produced by the marshal from one packet: each message runs
the callback chain, then is delivered (delivered collects the messages
whose chain completed).  An exception aborts the whole parse call,
dropping the remaining messages. -/
def parseMsgs (es : List CbEntry) (msgs : List Msg) (tr : List Nat)
    (delivered : List Msg) : List Nat × List Msg × Option PyExc :=
  match msgs with
  | [] => (tr, delivered, none)
  | m :: rest =>
    match runCallbacksTr es m tr with
    | (tr2, some ex) => (tr2, delivered, some ex)
    | (tr2, none) => parseMsgs es rest tr2 (delivered ++ [m])

/-- Outcome of dispatching one packet from _feed_buffers: processed
normally; dropped because parse raised AttributeError, which the
try/except at client.py lines 164-177 silently swallows; or crashed
because parse raised any other exception, which nothing catches, so it
escapes the reassembler loop and kills the feed thread. -/
inductive FeedOutcome where
  | processed (tr : List Nat) (delivered : List Msg)
  | droppedPacket (tr : List Nat) (delivered : List Msg)
  | crashed (tr : List Nat) (delivered : List Msg) (ex : PyExc)
deriving DecidableEq

/-- The call self.parse(buf) inside the try/except AttributeError of
Netlink._feed_buffers (client.py lines 164-177). -/
def feedDispatch (es : List CbEntry) (msgs : List Msg) : FeedOutcome :=
  match parseMsgs es msgs [] [] with
  | (tr, dl, none) => FeedOutcome.processed tr dl
  | (tr, dl, some PyExc.attributeError) => FeedOutcome.droppedPacket tr dl
  | (tr, dl, some ex) => FeedOutcome.crashed tr dl ex

/-- The entry raises ex on m: either its predicate raises, or its
predicate returns true and its action raises.  delta is the trace
contribution of the raising entry: nothing for a predicate raise, the
entry id for an action raise (the action was invoked and raised). -/
def entryRaises (e : CbEntry) (m : Msg) (ex : PyExc) (delta : List Nat) : Prop :=
  (e.pred m = Except.error ex ∧ delta = [])
  ∨ (e.pred m = Except.ok true ∧ e.action m = Except.error ex ∧ delta = [e.id])

/-- A concrete always-matching, never-raising callback entry. -/
def cbClean (n : Nat) : CbEntry :=
  CbEntry.mk n (fun _ => Except.ok true) (fun _ => Except.ok ())

/-- A concrete entry whose predicate raises exception other 9 exactly on
messages with sequence number 3 and declines every other message. -/
def cbPredRaise (n : Nat) : CbEntry :=
  CbEntry.mk n
    (fun m => if m.seq = 3 then Except.error (PyExc.other 9) else Except.ok false)
    (fun _ => Except.ok ())

/-! ### Listener registry and Netlink.get (client.py lines 354-406)

self.listeners is a dict from sequence number to a queue; modelled as
an association list from key to the queue contents plus the persist
marker (hasattr of persist).  Queue items are Option Msg because the
code uses a None item as a shutdown sentinel.
-/

/-- A listener queue: its buffered items in FIFO order and whether the
object carries the persist attribute. -/
structure NlQueue where
  items : List (Option Msg)
  persist : Bool
deriving DecidableEq

/-- The listener registry self.listeners, a dict keyed by sequence
number. -/
abbrev Registry := List (Nat × NlQueue)

/-- Dictionary lookup self.listeners[key] (none models KeyError). -/
def lookupQ : Registry → Nat → Option NlQueue
  | [], _ => none
  | (k, q) :: rest, key => if k = key then some q else lookupQ rest key

/-- Dictionary assignment self.listeners[key] = q (replace or add). -/
def setQ : Registry → Nat → NlQueue → Registry
  | [], key, q => [(key, q)]
  | (k, q0) :: rest, key, q =>
    if k = key then (key, q) :: rest else (k, q0) :: setQ rest key q

/-- Dictionary deletion del self.listeners[key]. -/
def eraseQ : Registry → Nat → Registry
  | [], _ => []
  | (k, q0) :: rest, key =>
    if k = key then eraseQ rest key else (k, q0) :: eraseQ rest key

/-- Netlink._remove_queue (client.py lines 354-368): for a key other
than 0, delete the queue and re-route its remaining messages to queue
0 when that queue exists; key 0 itself is never deleted. -/
def removeQueue (st : Registry) (key : Nat) : Registry :=
  match lookupQ st key with
  | none => st
  | some q =>
    if key ≠ 0 then
      match lookupQ (eraseQ st key) 0 with
      | some q0 =>
        setQ (eraseQ st key) 0 (NlQueue.mk (q0.items ++ q.items) q0.persist)
      | none => eraseQ st key
    else st

/-- Outcome of Netlink.get: a normal return with the collected result
list and the updated registry; Queue.Empty raised (timeout or the None
sentinel); the error value of a message header raised; blocked forever
waiting on the queue (key 0 or a persist queue with nothing buffered);
or a KeyError on the initial registry lookup. -/
inductive GetResult where
  | ok (result : List Msg) (st : Registry)
  | emptyErr (st : Registry)
  | msgErr (e : Nat) (st : Registry)
  | blocked (st : Registry)
  | keyError (st : Registry)
deriving DecidableEq

/-- The epilogue of Netlink.get (client.py lines 404-406): remove the
queue unless the captured queue object has the persist attribute. -/
def finishGet (key : Nat) (persist : Bool) (st : Registry) (acc : List Msg) :
    GetResult :=
  if persist = false then GetResult.ok acc (removeQueue st key)
  else GetResult.ok acc st

/-- The while loop of Netlink.get (client.py lines 379-403), popping
the buffered items of the queue captured at entry.  When the queue is
exhausted the next blocking pop either waits forever (key 0 or a
persist queue; the model has no further arrivals) or times out, which
removes the queue and re-raises Queue.Empty.  A popped None removes
the queue and raises Queue.Empty.  A popped message whose header
carries an error removes the queue and raises that error unless raw.
Otherwise the message is appended unless its type is NLMSG_DONE (or
always when raw), and the loop breaks on NLMSG_DONE, on a missing
NLM_F_MULTI flag bit, or unconditionally when raw. -/
def getLoop (key : Nat) (raw : Bool) (persist : Bool) :
    List (Option Msg) → Registry → List Msg → GetResult
  | [], st, _ =>
    if key = 0 ∨ persist = true then GetResult.blocked st
    else GetResult.emptyErr (removeQueue st key)
  | none :: rest, st, _ =>
    GetResult.emptyErr (removeQueue (setQ st key (NlQueue.mk rest persist)) key)
  | some msg :: rest, st, acc =>
    if msg.error ≠ none ∧ raw = false then
      GetResult.msgErr (msg.error.getD 0)
        (removeQueue (setQ st key (NlQueue.mk rest persist)) key)
    else if msg.mtype = NLMSG_DONE ∨ msg.flags &&& NLM_F_MULTI = 0 then
      finishGet key persist (setQ st key (NlQueue.mk rest persist))
        (if msg.mtype ≠ NLMSG_DONE ∨ raw = true then acc ++ [msg] else acc)
    else if raw = true then
      finishGet key persist (setQ st key (NlQueue.mk rest persist))
        (if msg.mtype ≠ NLMSG_DONE ∨ raw = true then acc ++ [msg] else acc)
    else
      getLoop key raw persist rest (setQ st key (NlQueue.mk rest persist))
        (if msg.mtype ≠ NLMSG_DONE ∨ raw = true then acc ++ [msg] else acc)

/-- Netlink.get (client.py lines 370-406): capture the queue object for
key, then run the collection loop with an empty result list. -/
def get (key : Nat) (raw : Bool) (st : Registry) : GetResult :=
  match lookupQ st key with
  | none => GetResult.keyError st
  | some q => getLoop key raw q.persist q.items st []

/-! ### Sequence allocator: Netlink.nonce (client.py lines 408-414) -/

/-- One call of Netlink.nonce under its lock: if the counter is
0xffffffff it is reset to 1, otherwise incremented; the new counter
value is both the new state and the returned value. -/
def nonceStep (n : Nat) : Nat :=
  if n = 0xffffffff then 1 else n + 1

/-- Value returned by the (k+1)-th successive call of nonce starting
from counter state n (the state after each call equals the returned
value). -/
def nonceSeq (n : Nat) : Nat → Nat
  | 0 => nonceStep n
  | k + 1 => nonceSeq (nonceStep n) k

/-! ### Request dispatcher: Netlink.nlm_request (client.py lines 441-461)

The request allocates a nonce, registers a fresh queue (no persist
attribute) under it, ships the envelope, and collects the reply via
get.  The replies that the feed thread will deliver into the queue are
modelled as the queue's initial contents.
-/

/-- Client state relevant to nlm_request: the nonce counter and the
listener registry. -/
structure NlState where
  nonce : Nat
  listeners : Registry

/-- Netlink.nlm_request (client.py lines 441-461) up to the return of
get: allocate nonce, register a fresh non-persist queue holding the
replies that will arrive, send (no registry effect), and collect.
Returns the get outcome and the allocated nonce. -/
def nlm_request (s : NlState) (replies : List (Option Msg)) : GetResult × Nat :=
  let n := nonceStep s.nonce
  let st := setQ s.listeners n (NlQueue.mk replies false)
  (get n false st, n)

/-! ### Monitor: Netlink.monitor (client.py lines 282-303)

monitor(operate) takes the first branch only when operate is true and
self.cid is None; it then installs the key-0 queue and records the
channel id returned by the SUBSCRIBE command.  In every other case,
including operate=true while already subscribed, it runs the else
branch: UNSUBSCRIBE, cid = None, del listeners[0].  The command()
round trip is modelled as producing the returned channel id; its own
transient listener is registered under a fresh nonce and removed
before command returns (theorem about nlm_request), so it has no net
effect on key 0.
-/

/-- Monitoring state: self.cid and the listener registry. -/
structure MonState where
  cid : Option Nat
  listeners : Registry
deriving DecidableEq

/-- Netlink.monitor (client.py lines 282-303); newCid is the channel id
the SUBSCRIBE command returns. -/
def monitor (s : MonState) (operate : Bool) (newCid : Nat) : MonState :=
  if operate = true ∧ s.cid = none then
    MonState.mk (some newCid) (setQ s.listeners 0 (NlQueue.mk [] false))
  else
    MonState.mk none (eraseQ s.listeners 0)

/-! ### IPRoute.link flag resolution (iproute.py lines 461-488) -/

/-- Python or on integers: the left operand if it is truthy (nonzero),
otherwise the right operand. -/
def pyOr (a b : Nat) : Nat :=
  if a ≠ 0 then a else b

/-- The flags and change computation of IPRoute.link (iproute.py lines
471-481): flags = pop flags or 0; mask = pop mask or pop change or 0;
a state keyword forces mask to 1 and flags to 1 exactly when its
lowercased value is the string up (stateArg carries that comparison
result).  Returns the pair written into the message as (flags,
change). -/
def linkFlagsChange (flagsArg maskArg changeArg : Option Nat)
    (stateArg : Option Bool) : Nat × Nat :=
  let flags := pyOr (flagsArg.getD 0) 0
  let mask := pyOr (pyOr (maskArg.getD 0) (changeArg.getD 0)) 0
  match stateArg with
  | none => (flags, mask)
  | some isUp => (if isUp then 1 else flags, 1)

/-! ### IPRoute.addr family guess (iproute.py lines 490-530) -/

/-- The AF_INET constant of the socket module (Linux value 2). -/
def AF_INET : Nat := 2

/-- The AF_INET6 constant of the socket module (Linux value 10). -/
def AF_INET6 : Nat := 10

/-- The family written into the message by IPRoute.addr (iproute.py
lines 514-518): AF_INET6 when the family argument is None and the
address string contains a colon, AF_INET in every other case. -/
def addrFamily (family : Option Nat) (address : List Char) : Nat :=
  if family = none ∧ address.contains ':' = true then AF_INET6 else AF_INET

/-! ### Registry lemmas -/

/-- Looking up the key just assigned returns the assigned queue. -/
theorem lookup_setQ_self (st : Registry) (key : Nat) (q : NlQueue) :
    lookupQ (setQ st key q) key = some q := by
  induction st with
  | nil => simp [setQ, lookupQ]
  | cons p rest ih =>
    obtain ⟨k0, q0⟩ := p
    by_cases h : k0 = key
    · simp [setQ, h, lookupQ]
    · simp [setQ, h, lookupQ, ih]

/-- Assignment to another key does not change a lookup. -/
theorem lookup_setQ_ne (st : Registry) (key k : Nat) (q : NlQueue)
    (h : k ≠ key) : lookupQ (setQ st key q) k = lookupQ st k := by
  have hne : ¬ key = k := fun he => h he.symm
  induction st with
  | nil => simp [setQ, lookupQ, hne]
  | cons p rest ih =>
    obtain ⟨k0, q0⟩ := p
    by_cases h0 : k0 = key
    · simp [setQ, lookupQ, h0, hne]
    · by_cases h1 : k0 = k
      · simp [setQ, h0, lookupQ, h1, h]
      · simp [setQ, h0, lookupQ, h1, ih]

/-- Deletion removes every binding of the key. -/
theorem lookup_eraseQ_self (st : Registry) (key : Nat) :
    lookupQ (eraseQ st key) key = none := by
  induction st with
  | nil => simp [eraseQ, lookupQ]
  | cons p rest ih =>
    obtain ⟨k0, q0⟩ := p
    by_cases h : k0 = key
    · simp [eraseQ, h, ih]
    · simp [eraseQ, h, lookupQ, ih]

/-- After remove_queue on a nonzero key the key is gone from the
registry (the re-routing step only touches key 0). -/
theorem lookup_removeQueue_self (st : Registry) (key : Nat) (hk : key ≠ 0) :
    lookupQ (removeQueue st key) key = none := by
  unfold removeQueue
  split
  · next hq => exact hq
  · next q hq =>
    rw [if_pos hk]
    split
    · next q0 h0 =>
      rw [lookup_setQ_ne _ _ _ _ hk]
      exact lookup_eraseQ_self st key
    · next h0 => exact lookup_eraseQ_self st key

/-- Every normal return of the get loop on a non-persist queue under a
nonzero key leaves the registry without that key. -/
theorem getLoop_ok_removed (key : Nat) (raw : Bool) (hk : key ≠ 0) :
    ∀ (items : List (Option Msg)) (st : Registry) (acc res : List Msg)
      (st' : Registry),
      getLoop key raw false items st acc = GetResult.ok res st' →
      lookupQ st' key = none := by
  intro items
  induction items with
  | nil =>
    intro st acc res st' h
    simp only [getLoop] at h
    rw [if_neg (by simp [hk])] at h
    exact absurd h (by simp)
  | cons it rest ih =>
    intro st acc res st' h
    cases it with
    | none =>
      simp only [getLoop] at h
      exact absurd h (by simp)
    | some msg =>
      simp only [getLoop] at h
      by_cases h1 : msg.error ≠ none ∧ raw = false
      · rw [if_pos h1] at h
        exact absurd h (by simp)
      · rw [if_neg h1] at h
        by_cases h2 : msg.mtype = NLMSG_DONE ∨ msg.flags &&& NLM_F_MULTI = 0
        · rw [if_pos h2] at h
          simp only [finishGet, if_pos rfl] at h
          obtain ⟨-, rfl⟩ := GetResult.ok.inj h
          exact lookup_removeQueue_self _ _ hk
        · rw [if_neg h2] at h
          by_cases h3 : raw = true
          · rw [if_pos h3] at h
            simp only [finishGet, if_pos rfl] at h
            obtain ⟨-, rfl⟩ := GetResult.ok.inj h
            exact lookup_removeQueue_self _ _ hk
          · rw [if_neg h3] at h
            exact ih _ _ _ _ h

/-! ### Sequence allocator lemmas -/

/-- Closed form of the allocator: starting from any reachable counter
state, the value of the (k+1)-th call cycles through 1..0xffffffff with
period 0xffffffff. -/
theorem nonceSeq_closed (k : Nat) : ∀ n : Nat, n ≤ 0xffffffff →
    nonceSeq n k = (n + k) % 0xffffffff + 1 := by
  induction k with
  | zero =>
    intro n hn
    by_cases h : n = 0xffffffff
    · subst h
      simp [nonceSeq, nonceStep]
    · have hlt : n < 0xffffffff := lt_of_le_of_ne hn h
      simp [nonceSeq, nonceStep, h, Nat.mod_eq_of_lt hlt]
  | succ k ih =>
    intro n hn
    show nonceSeq (nonceStep n) k = _
    by_cases h : n = 0xffffffff
    · subst h
      have hs : nonceStep 0xffffffff = 1 := by simp [nonceStep]
      rw [hs, ih 1 (by norm_num)]
      omega
    · have hs : nonceStep n = n + 1 := if_neg h
      rw [hs, ih (n + 1) (by omega)]
      omega

/-! ### Multi-part collection lemmas -/

/-- Collection lemma: a run of error-free MULTI messages terminated by
an error-free DONE is collected in order; the DONE itself is not
appended; the non-persist queue is removed on the way out. -/
theorem getLoop_collect (key : Nat) (d : Msg)
    (hd : d.mtype = NLMSG_DONE) (hde : d.error = none) :
    ∀ ms : List Msg,
      (∀ m ∈ ms, m.error = none ∧ m.mtype ≠ NLMSG_DONE ∧
        m.flags &&& NLM_F_MULTI ≠ 0) →
      ∀ (st : Registry) (acc : List Msg),
        ∃ st', getLoop key false false (ms.map some ++ [some d]) st acc
          = GetResult.ok (acc ++ ms) st' := by
  intro ms
  induction ms with
  | nil =>
    intro _ st acc
    refine ⟨removeQueue (setQ st key (NlQueue.mk [] false)) key, ?_⟩
    simp only [List.map_nil, List.nil_append, getLoop]
    rw [if_neg (by simp [hde]), if_pos (Or.inl hd)]
    simp [finishGet, hd]
  | cons m rest ih =>
    intro hms st acc
    have hm := hms m (List.mem_cons_self m rest)
    have hrest := fun x hx => hms x (List.mem_cons_of_mem m hx)
    obtain ⟨st', h⟩ := ih hrest
      (setQ st key (NlQueue.mk (rest.map some ++ [some d]) false)) (acc ++ [m])
    refine ⟨st', ?_⟩
    simp only [List.map_cons, List.cons_append, getLoop, List.append_eq]
    rw [if_neg (by simp [hm.1]),
        if_neg (by simp [hm.2.1, hm.2.2]),
        if_neg (by simp), if_pos (Or.inl hm.2.1), h]
    simp

/-- Without a terminating DONE (or a non-MULTI message) the loop
consumes the whole queue and then hits the empty-queue timeout path,
so get never returns normally. -/
theorem getLoop_noDone (key : Nat) (hk : key ≠ 0) :
    ∀ ms : List Msg,
      (∀ m ∈ ms, m.error = none ∧ m.mtype ≠ NLMSG_DONE ∧
        m.flags &&& NLM_F_MULTI ≠ 0) →
      ∀ (st : Registry) (acc : List Msg),
        ∃ st', getLoop key false false (ms.map some) st acc
          = GetResult.emptyErr st' := by
  intro ms
  induction ms with
  | nil =>
    intro _ st acc
    refine ⟨removeQueue st key, ?_⟩
    simp [getLoop, hk]
  | cons m rest ih =>
    intro hms st acc
    have hm := hms m (List.mem_cons_self m rest)
    have hrest := fun x hx => hms x (List.mem_cons_of_mem m hx)
    obtain ⟨st', h⟩ := ih hrest
      (setQ st key (NlQueue.mk (rest.map some) false)) (acc ++ [m])
    refine ⟨st', ?_⟩
    simp only [List.map_cons, getLoop, List.append_eq]
    rw [if_neg (by simp [hm.1]),
        if_neg (by simp [hm.2.1, hm.2.2]),
        if_neg (by simp), if_pos (Or.inl hm.2.1), h]

/-- Error lemma: with raw=false the loop walks past any prefix of
error-free MULTI messages and, on popping the first message whose
header carries an error, removes the non-persist queue under a nonzero
key and raises that error. -/
theorem getLoop_error (key : Nat) (hk : key ≠ 0) (msg : Msg) (e : Nat)
    (he : msg.error = some e) :
    ∀ ms : List Msg,
      (∀ m ∈ ms, m.error = none ∧ m.mtype ≠ NLMSG_DONE ∧
        m.flags &&& NLM_F_MULTI ≠ 0) →
      ∀ (rest : List (Option Msg)) (st : Registry) (acc : List Msg),
        ∃ st', getLoop key false false (ms.map some ++ some msg :: rest) st acc
            = GetResult.msgErr e st' ∧ lookupQ st' key = none := by
  intro ms
  induction ms with
  | nil =>
    intro _ rest st acc
    refine ⟨removeQueue (setQ st key (NlQueue.mk rest false)) key, ?_,
      lookup_removeQueue_self _ _ hk⟩
    simp only [List.map_nil, List.nil_append, getLoop]
    rw [if_pos (by simp [he])]
    simp [he]
  | cons m ms2 ih =>
    intro hms rest st acc
    have hm := hms m (List.mem_cons_self m ms2)
    have hrest := fun x hx => hms x (List.mem_cons_of_mem m hx)
    obtain ⟨st', h, hl⟩ := ih hrest rest
      (setQ st key (NlQueue.mk (ms2.map some ++ some msg :: rest) false))
      (acc ++ [m])
    refine ⟨st', ?_, hl⟩
    simp only [List.map_cons, List.cons_append, getLoop, List.append_eq]
    rw [if_neg (by simp [hm.1]),
        if_neg (by simp [hm.2.1, hm.2.2]),
        if_neg (by simp), if_pos (Or.inl hm.2.1), h]

/-- Termination on a missing MULTI bit: after any prefix of error-free
MULTI messages, popping an error-free non-DONE message whose flags
lack the MULTI bit appends it and breaks the loop immediately,
ignoring anything still queued behind it. -/
theorem getLoop_nonMulti (key : Nat) (t : Msg)
    (ht : t.mtype ≠ NLMSG_DONE) (htm : t.flags &&& NLM_F_MULTI = 0)
    (hte : t.error = none) :
    ∀ ms : List Msg,
      (∀ m ∈ ms, m.error = none ∧ m.mtype ≠ NLMSG_DONE ∧
        m.flags &&& NLM_F_MULTI ≠ 0) →
      ∀ (tail : List (Option Msg)) (st : Registry) (acc : List Msg),
        ∃ st', getLoop key false false (ms.map some ++ some t :: tail) st acc
          = GetResult.ok (acc ++ ms ++ [t]) st' := by
  intro ms
  induction ms with
  | nil =>
    intro _ tail st acc
    refine ⟨removeQueue (setQ st key (NlQueue.mk tail false)) key, ?_⟩
    simp only [List.map_nil, List.nil_append, getLoop]
    rw [if_neg (by simp [hte]), if_pos (Or.inr htm)]
    simp [finishGet, ht]
  | cons m ms2 ih =>
    intro hms tail st acc
    have hm := hms m (List.mem_cons_self m ms2)
    have hrest := fun x hx => hms x (List.mem_cons_of_mem m hx)
    obtain ⟨st', h⟩ := ih hrest tail
      (setQ st key (NlQueue.mk (ms2.map some ++ some t :: tail) false))
      (acc ++ [m])
    refine ⟨st', ?_⟩
    simp only [List.map_cons, List.cons_append, getLoop, List.append_eq]
    rw [if_neg (by simp [hm.1]),
        if_neg (by simp [hm.2.1, hm.2.2]),
        if_neg (by simp), if_pos (Or.inl hm.2.1), h]
    simp

/-! ### Callback chain lemmas -/

/-- A prefix of the chain that completes without an exception composes:
iterating the concatenation continues into the suffix with the trace
accumulated so far. -/
theorem runCallbacksTr_append (es1 es2 : List CbEntry) (msg : Msg) :
    ∀ tr tr1 : List Nat, runCallbacksTr es1 msg tr = (tr1, none) →
      runCallbacksTr (es1 ++ es2) msg tr = runCallbacksTr es2 msg tr1 := by
  induction es1 with
  | nil =>
    intro tr tr1 h
    simp only [runCallbacksTr, Prod.mk.injEq] at h
    rw [List.nil_append, h.1]
  | cons e es ih =>
    intro tr tr1 h
    simp only [List.cons_append, runCallbacksTr] at h ⊢
    cases hp : e.pred msg with
    | error ex => simp [hp] at h
    | ok b =>
      cases b with
      | false => simp only [hp] at h ⊢; exact ih tr tr1 h
      | true =>
        cases ha : e.action msg with
        | error ex => simp [hp, ha] at h
        | ok u => simp only [hp, ha] at h ⊢; exact ih _ tr1 h

/-- A prefix of the packet's messages that is processed without an
exception composes: the parse loop over the concatenation continues
into the remaining messages with the accumulated trace and delivered
list. -/
theorem parseMsgs_append (es : List CbEntry) (msgs1 msgs2 : List Msg) :
    ∀ (tr tr1 : List Nat) (dl dl1 : List Msg),
      parseMsgs es msgs1 tr dl = (tr1, dl1, none) →
      parseMsgs es (msgs1 ++ msgs2) tr dl = parseMsgs es msgs2 tr1 dl1 := by
  induction msgs1 with
  | nil =>
    intro tr tr1 dl dl1 h
    simp only [parseMsgs, Prod.mk.injEq] at h
    rw [List.nil_append, h.1, h.2.1]
  | cons m rest ih =>
    intro tr tr1 dl dl1 h
    simp only [List.cons_append, parseMsgs] at h ⊢
    cases hr : runCallbacksTr es m tr with
    | mk tr2 oex =>
      cases oex with
      | some ex => simp [hr] at h
      | none => simp only [hr] at h ⊢; exact ih tr2 tr1 (dl ++ [m]) dl1 h

/-! ### Claim theorems -/

/-- C1: evaluation at the failing input of the carry-over claim.  The
claim's universal carry retention fails on the code: feeding one blob
that holds a complete 40-byte envelope followed by the first 24 bytes
of a second envelope emits the first envelope and then DROPS the
24-byte tail (carry none), because the loop variable buf was rebound
to the emitted envelope's CDATA payload (client.py lines 165-167) and
the while condition offset < buf.length is false against it; the
claim and spec require the tail to be retained as the new carry.  The
carry machinery does work before the first emission: the claim's own
24+16 scenario (second and third conjuncts) holds, since there the
overrun is detected at offset 0 and the whole buffer is saved. -/
theorem C1_reassembler_tail_dropped :
    feed_one none (env40 ++ env40.take 24) = WalkResult.ok [env40] none
    ∧ feed_one none (env40 ++ env40.take 24)
      ≠ WalkResult.ok [env40] (some (env40.take 24))
    ∧ feed_one none (env40.take 24) = WalkResult.ok [] (some (env40.take 24))
    ∧ feed_one (some (env40.take 24)) (env40.drop 24)
      = WalkResult.ok [env40] none := by
  decide

/-- C2 counterexample: a predicate-true entry whose action raises a
non-AttributeError exception.  Contrary to the claim, the exception
escapes the dispatch path in _feed_buffers (crashing the feed thread)
and the second registered entry (id 2) is never attempted: the trace
of invoked actions is [1]. -/
theorem C2_counterexample :
    feedDispatch
      [CbEntry.mk 1 (fun _ => Except.ok true)
        (fun _ => Except.error (PyExc.other 7)),
       CbEntry.mk 2 (fun _ => Except.ok true) (fun _ => Except.ok ())]
      [Msg.mk 16 2 1 none]
      = FeedOutcome.crashed [1] [] (PyExc.other 7) := by
  rfl

/-- C2 amended: an exception raised by any entry's predicate or action,
on any message of the packet, aborts the callback chain at that entry.
Entries before the raising one on earlier messages and on this message
run normally (hypotheses h0 and h1 fix their trace and the delivered
messages); the raising entry contributes only delta to the trace; and
the outcome is fully determined without the suffix es2 of the chain or
the remaining messages msgs2, so no later entry is attempted and no
later message is delivered.  The exception propagates out of parse,
and the feed loop swallows it only when it is an AttributeError
(silently dropping the rest of the packet), while any other exception
escapes the reassembler. -/
theorem C2_exception_aborts_chain (es1 es2 : List CbEntry) (e : CbEntry)
    (msgs1 msgs2 : List Msg) (msg : Msg) (ex : PyExc)
    (tr0 tr1 delta : List Nat) (dl0 : List Msg)
    (h0 : parseMsgs (es1 ++ e :: es2) msgs1 [] [] = (tr0, dl0, none))
    (h1 : runCallbacksTr es1 msg tr0 = (tr1, none))
    (h2 : entryRaises e msg ex delta) :
    feedDispatch (es1 ++ e :: es2) (msgs1 ++ msg :: msgs2)
      = if ex = PyExc.attributeError
        then FeedOutcome.droppedPacket (tr1 ++ delta) dl0
        else FeedOutcome.crashed (tr1 ++ delta) dl0 ex := by
  have hcb : runCallbacksTr (es1 ++ e :: es2) msg tr0 = (tr1 ++ delta, some ex) := by
    rw [runCallbacksTr_append es1 (e :: es2) msg tr0 tr1 h1]
    rcases h2 with ⟨hp, hd⟩ | ⟨hp, ha, hd⟩
    · subst hd
      simp [runCallbacksTr, hp]
    · subst hd
      simp [runCallbacksTr, hp, ha]
  have hpm : parseMsgs (es1 ++ e :: es2) (msgs1 ++ msg :: msgs2) [] []
      = (tr1 ++ delta, dl0, some ex) := by
    rw [parseMsgs_append (es1 ++ e :: es2) msgs1 (msg :: msgs2) [] tr0 [] dl0 h0]
    simp only [parseMsgs, hcb]
  simp only [feedDispatch, hpm]
  cases ex with
  | attributeError => rfl
  | other c => rfl

/-- C2 amended witness: in the chain clean 5, predicate-raising 6,
clean 7, message sequence 3 (the second of three queued messages)
makes entry 6's predicate raise exception other 9.  The first message
runs the whole chain (trace 5, 7) and is delivered; on the raising
message entry 5 runs (trace grows to 5, 7, 5), entry 7 is never
attempted, the third message is never delivered, and the exception
escapes the feed loop. -/
theorem C2_exception_aborts_chain_witness :
    feedDispatch [cbClean 5, cbPredRaise 6, cbClean 7]
      [Msg.mk 16 2 1 none, Msg.mk 16 2 3 none, Msg.mk 16 2 2 none]
      = if PyExc.other 9 = PyExc.attributeError
        then FeedOutcome.droppedPacket ([5, 7, 5] ++ []) [Msg.mk 16 2 1 none]
        else FeedOutcome.crashed ([5, 7, 5] ++ []) [Msg.mk 16 2 1 none]
            (PyExc.other 9) :=
  C2_exception_aborts_chain [cbClean 5] [cbClean 7] (cbPredRaise 6)
    [Msg.mk 16 2 1 none] [Msg.mk 16 2 2 none] (Msg.mk 16 2 3 none)
    (PyExc.other 9) [5, 7] [5, 7, 5] [] [Msg.mk 16 2 1 none]
    (by decide) (by decide) (Or.inl ⟨rfl, rfl⟩)

/-- C3 counterexample: the first monitor(on) does install key 0, but a
second monitor(on) with no intervening monitor(off) takes the else
branch of the condition (operate and cid is None) and deletes key 0,
so after the second call key 0 is absent, contradicting the claim. -/
theorem C3_counterexample :
    lookupQ (monitor (monitor (MonState.mk none []) true 5) true 6).listeners 0
      = none
    ∧ lookupQ (monitor (MonState.mk none []) true 5).listeners 0
      = some (NlQueue.mk [] false) := by
  decide

/-- C3 amended: a monitor(on) call issued while monitoring is disabled
(cid is None) installs key 0 in the registry; a monitor(on) issued
while monitoring is already enabled instead acts as monitor(off),
removing key 0. -/
theorem C3_monitor_on_amended (s : MonState) (c : Nat) (h : s.cid = none) :
    lookupQ (monitor s true c).listeners 0 = some (NlQueue.mk [] false)
    ∧ ∀ s2 : MonState, s2.cid ≠ none →
        lookupQ (monitor s2 true c).listeners 0 = none := by
  constructor
  · unfold monitor
    rw [if_pos ⟨rfl, h⟩]
    exact lookup_setQ_self _ _ _
  · intro s2 h2
    unfold monitor
    rw [if_neg (fun hc => h2 hc.2)]
    exact lookup_eraseQ_self _ _

/-- C3 amended witness: monitor(on) from a disabled state with one
unrelated listener registered installs key 0; monitor(on) from an
enabled state removes it. -/
theorem C3_monitor_on_amended_witness :
    lookupQ (monitor (MonState.mk none [(7, NlQueue.mk [] false)]) true 9).listeners 0
      = some (NlQueue.mk [] false)
    ∧ ∀ s2 : MonState, s2.cid ≠ none →
        lookupQ (monitor s2 true 9).listeners 0 = none :=
  C3_monitor_on_amended (MonState.mk none [(7, NlQueue.mk [] false)]) 9 rfl

/-- C4: the sequence allocator.  From any reachable counter state
(0 initially, afterwards always in [1, 0xffffffff]) every returned
value lies in [1, 0xffffffff] and is never 0; after returning
0xffffffff the next returned value is 1; and any N < 2^32 successive
returned values are pairwise distinct. -/
theorem C4_nonce_allocator (n N i j : Nat) (hn : n ≤ 0xffffffff)
    (hN : N < 2 ^ 32) (hi : i < N) (hj : j < N) :
    (1 ≤ nonceSeq n i ∧ nonceSeq n i ≤ 0xffffffff)
    ∧ nonceStep 0xffffffff = 1
    ∧ (nonceSeq n i = nonceSeq n j → i = j) := by
  have h1 := nonceSeq_closed i n hn
  have h2 := nonceSeq_closed j n hn
  refine ⟨⟨?_, ?_⟩, by simp [nonceStep], ?_⟩
  · rw [h1]; omega
  · rw [h1]; omega
  · intro he
    rw [h1, h2] at he
    omega

/-- C4 witness: the allocator statement evaluated from the initial
state 0 with N = 2 calls. -/
theorem C4_nonce_allocator_witness :
    (1 ≤ nonceSeq 0 0 ∧ nonceSeq 0 0 ≤ 0xffffffff)
    ∧ nonceStep 0xffffffff = 1
    ∧ (nonceSeq 0 0 = nonceSeq 0 1 → 0 = 1) :=
  C4_nonce_allocator 0 2 0 1 (by norm_num) (by norm_num) (by norm_num)
    (by norm_num)

/-- C5 counterexample: for the broadcast key 0 the claim fails.  A
non-persist listener at key 0 whose queue holds a message with error
17 makes get(0, raw=false) raise the error, but _remove_queue never
deletes key 0, so the listener is still present afterwards. -/
theorem C5_counterexample :
    get 0 false [(0, NlQueue.mk [some (Msg.mk 16 2 0 (some 17))] false)]
      = GetResult.msgErr 17 [(0, NlQueue.mk [] false)]
    ∧ lookupQ [((0 : Nat), NlQueue.mk ([] : List (Option Msg)) false)] 0
      = some (NlQueue.mk [] false) := by
  decide

/-- C5 amended: for a non-persist listener under a nonzero key, every
message popped with raw=false whose inner header carries an error
(reached past any prefix of error-free MULTI messages, the only
messages the loop continues over) makes get remove the listener and
raise that error; with raw=true the loop breaks after the very first
pop, so the first queued record is returned to the caller untouched,
error and all; for key 0 the error is still raised but the broadcast
listener is retained. -/
theorem C5_get_error_amended (key : Nat) (ms : List Msg) (msg : Msg)
    (rest : List (Option Msg)) (st : Registry) (e : Nat)
    (hk : key ≠ 0)
    (hms : ∀ m ∈ ms, m.error = none ∧ m.mtype ≠ NLMSG_DONE ∧
      m.flags &&& NLM_F_MULTI ≠ 0)
    (hq : lookupQ st key
      = some (NlQueue.mk (ms.map some ++ some msg :: rest) false))
    (he : msg.error = some e) :
    (∃ st', get key false st = GetResult.msgErr e st'
      ∧ lookupQ st' key = none)
    ∧ (ms = [] → get key true st
        = GetResult.ok [msg]
            (removeQueue (setQ st key (NlQueue.mk rest false)) key)) := by
  constructor
  · obtain ⟨st', h, hl⟩ := getLoop_error key hk msg e he ms hms rest st []
    refine ⟨st', ?_, hl⟩
    simp only [get, hq]
    exact h
  · intro hnil
    subst hnil
    simp only [List.map_nil, List.nil_append] at hq
    simp only [get, hq, getLoop]
    rw [if_neg (by simp)]
    by_cases hbreak : msg.mtype = NLMSG_DONE ∨ msg.flags &&& NLM_F_MULTI = 0
    · rw [if_pos hbreak]
      simp [finishGet]
    · rw [if_neg hbreak, if_pos trivial]
      simp [finishGet]

/-- C5 amended witness: an error-17 message queued behind one MULTI
message at key 1 makes get raise 17 and remove the listener. -/
theorem C5_get_error_amended_witness :
    (∃ st', get 1 false
        [(1, NlQueue.mk
          [some (Msg.mk 20 2 1 none), some (Msg.mk 16 2 1 (some 17))] false)]
        = GetResult.msgErr 17 st' ∧ lookupQ st' 1 = none)
    ∧ ([Msg.mk 20 2 1 none] = [] →
        get 1 true
          [(1, NlQueue.mk
            [some (Msg.mk 20 2 1 none), some (Msg.mk 16 2 1 (some 17))] false)]
          = GetResult.ok [Msg.mk 16 2 1 (some 17)]
              (removeQueue
                (setQ
                  [(1, NlQueue.mk
                    [some (Msg.mk 20 2 1 none),
                     some (Msg.mk 16 2 1 (some 17))] false)] 1
                  (NlQueue.mk [] false)) 1)) :=
  C5_get_error_amended 1 [Msg.mk 20 2 1 none] (Msg.mk 16 2 1 (some 17)) []
    _ 17 (by decide) (by decide) (by decide) rfl

/-- C6: multi-part collection in get with raw=false, for a non-persist
listener under a nonzero key holding error-free messages.  First, a
run of MULTI messages (type not DONE, MULTI bit set) terminated by a
DONE returns exactly the messages preceding the DONE, in order, with
the DONE not appended.  Second, the other half of the termination
rule: a run of MULTI messages followed by a non-DONE message whose
flags lack the MULTI bit returns the run plus that terminal message
(it IS appended), breaking immediately and never touching whatever is
still queued behind it.  Third, with MULTI messages and no terminator
of either kind, the loop drains the queue without returning and hits
the timeout path (Queue.Empty): the loop terminates normally exactly
on a DONE or on a missing MULTI bit. -/
theorem C6_multipart_collection (key : Nat) (ms : List Msg) (d t : Msg)
    (tail : List (Option Msg))
    (hk : key ≠ 0)
    (hms : ∀ m ∈ ms, m.error = none ∧ m.mtype ≠ NLMSG_DONE ∧
      m.flags &&& NLM_F_MULTI ≠ 0)
    (hd : d.mtype = NLMSG_DONE) (hde : d.error = none)
    (ht : t.mtype ≠ NLMSG_DONE) (htm : t.flags &&& NLM_F_MULTI = 0)
    (hte : t.error = none) :
    (∀ st : Registry,
      lookupQ st key = some (NlQueue.mk (ms.map some ++ [some d]) false) →
      ∃ st', get key false st = GetResult.ok ms st')
    ∧ (∀ st : Registry,
      lookupQ st key
        = some (NlQueue.mk (ms.map some ++ some t :: tail) false) →
      ∃ st', get key false st = GetResult.ok (ms ++ [t]) st')
    ∧ (∀ st : Registry,
      lookupQ st key = some (NlQueue.mk (ms.map some) false) →
      ∃ st', get key false st = GetResult.emptyErr st') := by
  refine ⟨?_, ?_, ?_⟩
  · intro st hq
    obtain ⟨st', h⟩ := getLoop_collect key d hd hde ms hms st []
    refine ⟨st', ?_⟩
    simp only [get, hq]
    simpa using h
  · intro st hq
    obtain ⟨st', h⟩ := getLoop_nonMulti key t ht htm hte ms hms tail st []
    refine ⟨st', ?_⟩
    simp only [get, hq]
    simpa using h
  · intro st hq
    obtain ⟨st', h⟩ := getLoop_noDone key hk ms hms st []
    refine ⟨st', ?_⟩
    simp only [get, hq]
    exact h

/-- C6 witness: one MULTI message followed by a DONE returns exactly
that message; one MULTI message followed by a non-MULTI terminal
returns both and ignores a message still queued behind the terminal;
one MULTI message alone drains to the timeout path. -/
theorem C6_multipart_collection_witness :
    (∀ st : Registry,
      lookupQ st 1 = some (NlQueue.mk
        [some (Msg.mk 20 2 1 none), some (Msg.mk 3 2 1 none)] false) →
      ∃ st', get 1 false st = GetResult.ok [Msg.mk 20 2 1 none] st')
    ∧ (∀ st : Registry,
      lookupQ st 1 = some (NlQueue.mk
        [some (Msg.mk 20 2 1 none), some (Msg.mk 21 0 1 none),
         some (Msg.mk 22 2 1 none)] false) →
      ∃ st', get 1 false st
        = GetResult.ok ([Msg.mk 20 2 1 none] ++ [Msg.mk 21 0 1 none]) st')
    ∧ (∀ st : Registry,
      lookupQ st 1 = some (NlQueue.mk [some (Msg.mk 20 2 1 none)] false) →
      ∃ st', get 1 false st = GetResult.emptyErr st') :=
  C6_multipart_collection 1 [Msg.mk 20 2 1 none] (Msg.mk 3 2 1 none)
    (Msg.mk 21 0 1 none) [some (Msg.mk 22 2 1 none)]
    (by decide) (by decide) rfl rfl (by decide) rfl rfl

/-- C7: every nlm_request that completes normally (its get call returns
a result list rather than raising) has removed the listener registered
under its allocated sequence number from the registry before the call
returns: the queue it registers carries no persist attribute and the
allocated nonce is never 0. -/
theorem C7_request_removes_listener (s : NlState)
    (replies : List (Option Msg)) (res : List Msg) (st' : Registry)
    (h : (nlm_request s replies).1 = GetResult.ok res st') :
    lookupQ st' (nlm_request s replies).2 = none := by
  have hpos : nonceStep s.nonce ≠ 0 := by
    unfold nonceStep
    split <;> omega
  simp only [nlm_request, get, lookup_setQ_self] at h ⊢
  exact getLoop_ok_removed _ _ hpos _ _ _ _ _ h

/-- C7 witness: a request dispatched from the initial state whose reply
queue delivers a single DONE completes normally with an empty result
and leaves the registry without its nonce key 1. -/
theorem C7_request_removes_listener_witness :
    lookupQ ([] : Registry)
      (nlm_request (NlState.mk 0 []) [some (Msg.mk 3 0 1 none)]).2 = none :=
  C7_request_removes_listener (NlState.mk 0 [])
    [some (Msg.mk 3 0 1 none)] [] [] (by decide)

/-- C8: evaluation at the failing input of the incomplete-prefix case.
When fewer than 8 bytes remain at the current walk offset the code
does not retain the tail as carry: struct.unpack of the short read
raises struct.error, which nothing in _feed_buffers catches, so the
reassembler thread dies.  A single 4-byte blob already triggers it. -/
theorem C8_short_prefix_unpack_error :
    feed_one none [40, 0, 0, 0] = WalkResult.unpackError []
    ∧ feed_one none [40, 0, 0, 0] ≠ WalkResult.ok [] (some [40, 0, 0, 0]) := by
  decide

/-- C9 counterexample: in IPRoute.link the expression pop mask or pop
change or 0 uses Python truthiness, so with mask=0 and change=5 both
supplied the message change field becomes 5, taken from change, not
from mask as the claim states. -/
theorem C9_counterexample :
    (linkFlagsChange none (some 0) (some 5) none).2 = 5 ∧ (5 : Nat) ≠ 0 := by
  decide

/-- C9 amended: when both mask and change are supplied, mask wins only
when it is truthy (nonzero); when mask is 0 (falsy) the change value
is used instead. -/
theorem C9_mask_wins_amended (m c : Nat) (hm : m ≠ 0) :
    (linkFlagsChange none (some m) (some c) none).2 = m
    ∧ (linkFlagsChange none (some 0) (some c) none).2 = c := by
  constructor
  · simp [linkFlagsChange, pyOr, hm]
  · by_cases hc : c = 0 <;> simp [linkFlagsChange, pyOr, hc]

/-- C9 amended witness: mask 4 beats change 9; mask 0 yields change
9. -/
theorem C9_mask_wins_amended_witness :
    (linkFlagsChange none (some 4) (some 9) none).2 = 4
    ∧ (linkFlagsChange none (some 0) (some 9) none).2 = 9 :=
  C9_mask_wins_amended 4 9 (by decide)

/-- C10: in IPRoute.addr the family written into the message is
AF_INET6 exactly when the family argument is None and the address
contains a colon; in every other case, including an explicitly passed
family=AF_INET6, the message family is AF_INET. -/
theorem C10_addr_family (family : Option Nat) (address : List Char) :
    (addrFamily family address = AF_INET6
      ↔ family = none ∧ address.contains ':' = true)
    ∧ (¬ (family = none ∧ address.contains ':' = true) →
        addrFamily family address = AF_INET) := by
  by_cases hc : family = none ∧ address.contains ':' = true
  · simp [addrFamily, hc, AF_INET, AF_INET6]
  · simp [addrFamily, hc, AF_INET, AF_INET6]

/-- C10 witness: an explicitly supplied family=AF_INET6 together with a
colon-bearing address still yields AF_INET. -/
theorem C10_addr_family_witness :
    addrFamily (some AF_INET6) [':'] = AF_INET :=
  (C10_addr_family (some AF_INET6) [':']).2 (by simp)

end Pyroute2
